import Mathlib

/-!
Verification of the sparv stats-export layer:
`sparv/modules/stats_export/sbx_stats.py` (conditional complemgram suppression and the
install/uninstall marker state machine) and `sparv/core/dev.py` (workdir file inspection).

The Python functions are shallowly embedded as Lean definitions.  External effects
(file transfer, reads) are represented by explicit oracles and by traces of the
transport actions the code requests, so that claims about error handling and marker
state become statements about the returned values.
-/

namespace Sparv

/-- Python truthiness of a `str | None` value: `None` and the empty string are falsy. -/
def optStrTruthy : Option String → Bool
  | none => false
  | some s => s ≠ ""

/-- Python `s.startswith(pre)`, computed on the character lists. -/
def startswith (s pre : String) : Bool :=
  pre.toList.isPrefixOf s.toList

/-- Python `s.rstrip("/")`: remove every trailing `/` character. -/
def rstripSlashes (s : String) : String :=
  String.mk ((s.toList.reverse.dropWhile (fun c => c = '/')).reverse)

/-- Split a character list at every occurrence of `sep`. -/
def splitOnChar (sep : Char) : List Char → List (List Char)
  | [] => [[]]
  | c :: cs =>
    let r := splitOnChar sep cs
    if c = sep then [] :: r
    else
      match r with
      | [] => [[c]]
      | h :: t => (c :: h) :: t

/-- `pathlib.Path(p).name` for plain slash-separated relative paths: the last
non-empty `/`-separated component, or `""` when there is none. -/
def pathName (p : String) : String :=
  ((((splitOnChar '/' p.toList).map String.mk).filter (fun c => c ≠ "")).getLast?).getD ""

/-- `pathlib.Path(d) / f` for plain slash-separated paths: join with a single `/`,
collapsing trailing slashes of `d`; an empty `d` (pathlib `.`) yields `f` itself. -/
def pathJoin (d f : String) : String :=
  if d = "" then f
  else if rstripSlashes d = "" then "/" ++ f
  else rstripSlashes d ++ "/" ++ f

/-! ## Marker state machine (`sbx_stats.py`, installers and uninstallers) -/

/-- The persistent marker pair of one job-variant: whether the install-marker file and
the uninstall-marker file are present. -/
structure MarkerState where
  install : Bool
  uninstall : Bool
deriving DecidableEq, Repr

/-- Errors an install/uninstall operation can surface: `SparvErrorMessage` raised by the
function body itself, or a propagated exception from the transport step
(`util.install.install_svn` / `install_path` / `uninstall_svn` / `uninstall_path`). -/
inductive SparvError
  | sparvErrorMessage (msg : String)
  | transportError
deriving DecidableEq, Repr

/-- One transport action requested from `sparv.api.util.install`, recorded with exactly
the arguments the source passes. -/
inductive Transport
  | svnCommit (source url : String) (remove_existing : Bool)
  | pathCopy (source : String) (host : Option String) (target_dir : String)
  | svnRemove (url : String)
  | pathRemove (remote_file : String) (host : Option String)
deriving DecidableEq, Repr

/-- Result of one install/uninstall call: the transport actions attempted (in order),
the error raised if any, and the marker state afterwards. -/
structure OpResult where
  attempted : List Transport
  error : Option SparvError
  markers : MarkerState
deriving DecidableEq, Repr

/-- `install_sbx_freq_list` from `sbx_stats.py`: reject an empty `target_dir` with
`SparvErrorMessage`; otherwise commit `freq_list` to
`host.rstrip("/") + "/" + Path(freq_list).name` when the host is truthy and starts with
`"svn+"`, else copy it to `host:target_dir`; on transport success remove the
uninstall-marker and write the install-marker.  `transportOk` is the oracle for whether
the transport call raises; `st` is the marker state on entry. -/
def install_sbx_freq_list (freq_list : String) (host : Option String) (target_dir : String)
    (transportOk : Bool) (st : MarkerState) : OpResult :=
  if target_dir = "" then
    { attempted := []
      error := some (.sparvErrorMessage "Target directory must be specified.")
      markers := st }
  else
    let t : Transport :=
      if optStrTruthy host && startswith (host.getD "") "svn+" then
        .svnCommit freq_list (rstripSlashes (host.getD "") ++ "/" ++ pathName freq_list) true
      else
        .pathCopy freq_list host target_dir
    if transportOk then
      { attempted := [t], error := none, markers := { install := true, uninstall := false } }
    else
      { attempted := [t], error := some .transportError, markers := st }

/-- `uninstall_sbx_freq_list` from `sbx_stats.py`: reject an empty `remote_dir` with
`SparvErrorMessage`; otherwise compute the remote file name
`"stats_" + corpus_id + ".csv"` plus `"." + compression` when `use_compression` is set,
remove it over SVN when the host is truthy and starts with `"svn+"`, else remove
`Path(remote_dir) / uninstall_file` on the host; on transport success remove the
install-marker and write the uninstall-marker. -/
def uninstall_sbx_freq_list (corpus_id : String) (host : Option String) (remote_dir : String)
    (compression : String) (use_compression : Bool) (transportOk : Bool)
    (st : MarkerState) : OpResult :=
  if remote_dir = "" then
    { attempted := []
      error := some (.sparvErrorMessage "Remote directory must be specified.")
      markers := st }
  else
    let uninstall_file :=
      "stats_" ++ corpus_id ++ ".csv" ++ (if use_compression then "." ++ compression else "")
    let t : Transport :=
      if optStrTruthy host && startswith (host.getD "") "svn+" then
        .svnRemove (rstripSlashes (host.getD "") ++ "/" ++ uninstall_file)
      else
        .pathRemove (pathJoin remote_dir uninstall_file) host
    if transportOk then
      { attempted := [t], error := none, markers := { install := false, uninstall := true } }
    else
      { attempted := [t], error := some .transportError, markers := st }

/-- Modelled from the spec: `util.install.install_svn` is not under `src/`; per the
spec's remote-transport section and its concrete scenario, the version-control
transport commits at the URL obtained by stripping the reserved scheme prefix
`"svn+"` from the URL it is given. -/
def install_svn_commit_url (url : String) : String :=
  if startswith url "svn+" then String.mk (url.toList.drop 4) else url

/-! ## Conditional complemgram suppression (`conditional_best_complemgram`) -/

/-- The loop body of `conditional_best_complemgram`: blank the complemgram when the
companion sense value is truthy and not the `"|"` sentinel, else keep it. -/
def suppress_step (p : String × String) : String :=
  if p.2 ≠ "" ∧ p.2 ≠ "|" then "" else p.1

/-- The accumulation loop of `conditional_best_complemgram`, appending one output value
per input pair to `acc` in order. -/
def condLoop : List (String × String) → List String → List String
  | [], acc => acc
  | p :: rest, acc => condLoop rest (acc ++ [suppress_step p])

/-- `conditional_best_complemgram` from `sbx_stats.py`, acting on the list of
(complemgram, sense value) pairs read from the two annotations. -/
def conditional_best_complemgram (all_pairs : List (String × String)) : List String :=
  condLoop all_pairs []

/-- `Annotation.read_attributes` over the two streams (not under `src/`): yields the
(complemgram, sense) value pairs position by position. -/
def read_attributes (complemgrams sense : List String) : List (String × String) :=
  complemgrams.zip sense

/-! ## Workdir file inspection (`sparv/core/dev.py`) -/

/-- Result of `inspect_workdir_file`: the returned boolean, the codec setting
(`io.compression`) in effect at each read attempt in order, and whether the job
configuration was consulted. -/
structure InspectResult where
  success : Bool
  readAttempts : List (Option String)
  configConsulted : Bool
deriving DecidableEq, Repr

/-- `inspect_workdir_file` from `dev.py`.  `fileIsFile` models `Path(filename).is_file()`;
`readOk c` is the oracle for whether `read_and_print` succeeds with `io.compression = c`
(the initial value of `io.compression`, not under `src/`, is modelled from the spec:
the first inspection read is made "using no codec", hence `none` when the caller pins
nothing); `config_missing` and `configCompression` model `snake_utils.load_config({})`
and `config.get("sparv.compression")`. -/
def inspect_workdir_file (fileIsFile : Bool) (compression : Option String)
    (readOk : Option String → Bool) (config_missing : Bool)
    (configCompression : Option String) : InspectResult :=
  if !fileIsFile then
    { success := false, readAttempts := [], configConsulted := false }
  else
    let ioComp : Option String := if optStrTruthy compression then compression else none
    if readOk ioComp then
      { success := true, readAttempts := [ioComp], configConsulted := false }
    else if optStrTruthy compression then
      { success := false, readAttempts := [ioComp], configConsulted := false }
    else if config_missing || !optStrTruthy configCompression then
      { success := false, readAttempts := [ioComp], configConsulted := true }
    else if readOk configCompression then
      { success := true, readAttempts := [ioComp, configCompression], configConsulted := true }
    else
      { success := false, readAttempts := [ioComp, configCompression], configConsulted := true }

end Sparv

namespace Sparv

/-! ## Claims about the marker state machine -/

/-- Claim C1: an install call with empty `target_dir` fails with the configuration
error "Target directory must be specified.", attempts no transfer, and leaves both
markers unchanged. -/
theorem install_empty_target_dir_config_error (fl : String) (host : Option String)
    (ok : Bool) (st : MarkerState) :
    install_sbx_freq_list fl host "" ok st =
      { attempted := []
        error := some (.sparvErrorMessage "Target directory must be specified.")
        markers := st } := rfl

/-- Claim C8: an uninstall call with empty `remote_dir` fails with the configuration
error "Remote directory must be specified.", attempts no removal, and leaves both
markers unchanged. -/
theorem uninstall_empty_remote_dir_config_error (cid : String) (host : Option String)
    (comp : String) (uc ok : Bool) (st : MarkerState) :
    uninstall_sbx_freq_list cid host "" comp uc ok st =
      { attempted := []
        error := some (.sparvErrorMessage "Remote directory must be specified.")
        markers := st } := rfl

/-- Claim C2: after a successful install the markers are exactly (install present,
uninstall absent); after a successful uninstall they are exactly (install absent,
uninstall present); in particular the two markers are never simultaneously present
after a complete successful operation. -/
theorem markers_not_both_after_success (fl td cid rd comp : String) (h1 h2 : Option String)
    (uc ok1 ok2 : Bool) (st1 st2 : MarkerState) :
    ((install_sbx_freq_list fl h1 td ok1 st1).error = none →
      (install_sbx_freq_list fl h1 td ok1 st1).markers =
        { install := true, uninstall := false } ∧
      ¬((install_sbx_freq_list fl h1 td ok1 st1).markers.install = true ∧
        (install_sbx_freq_list fl h1 td ok1 st1).markers.uninstall = true)) ∧
    ((uninstall_sbx_freq_list cid h2 rd comp uc ok2 st2).error = none →
      (uninstall_sbx_freq_list cid h2 rd comp uc ok2 st2).markers =
        { install := false, uninstall := true } ∧
      ¬((uninstall_sbx_freq_list cid h2 rd comp uc ok2 st2).markers.install = true ∧
        (uninstall_sbx_freq_list cid h2 rd comp uc ok2 st2).markers.uninstall = true)) := by
  constructor
  · intro h
    by_cases htd : td = "" <;> by_cases hok : ok1 = true <;>
      simp [install_sbx_freq_list, htd, hok] at h ⊢
  · intro h
    by_cases hrd : rd = "" <;> by_cases hok : ok2 = true <;>
      simp [uninstall_sbx_freq_list, hrd, hok] at h ⊢

/-- Witness for C2 at concrete inputs: a successful install from marker state
(absent, present) yields (present, absent). -/
theorem markers_not_both_after_success_witness :
    (install_sbx_freq_list "f" none "d" true ⟨false, true⟩).markers =
      { install := true, uninstall := false } ∧
    ¬((install_sbx_freq_list "f" none "d" true ⟨false, true⟩).markers.install = true ∧
      (install_sbx_freq_list "f" none "d" true ⟨false, true⟩).markers.uninstall = true) :=
  (markers_not_both_after_success "f" "d" "c" "r" "gz" none none false true true
    ⟨false, true⟩ ⟨true, false⟩).1 (by decide)

/-- Claim C3: when the transport step of an install fails, the error propagates, no
install-marker is written and the uninstall-marker is not removed: the marker state is
returned unchanged. -/
theorem install_transport_failure_markers_unchanged (fl : String) (host : Option String)
    (td : String) (st : MarkerState) (htd : td ≠ "") :
    (install_sbx_freq_list fl host td false st).markers = st ∧
    (install_sbx_freq_list fl host td false st).error = some .transportError := by
  simp [install_sbx_freq_list, htd]

/-- Witness for C3 at concrete inputs: a failed transport leaves the marker state
(absent, present) untouched. -/
theorem install_transport_failure_markers_unchanged_witness :
    (install_sbx_freq_list "f" none "d" false ⟨false, true⟩).markers = ⟨false, true⟩ ∧
    (install_sbx_freq_list "f" none "d" false ⟨false, true⟩).error =
      some SparvError.transportError :=
  install_transport_failure_markers_unchanged "f" none "d" ⟨false, true⟩ (by decide)

/-- Claim C9: when the file is not an existing regular file, `inspect_workdir_file`
returns false with no read attempt and no configuration lookup, for every compression
argument. -/
theorem inspect_missing_file_no_read (comp : Option String) (readOk : Option String → Bool)
    (cm : Bool) (cc : Option String) :
    inspect_workdir_file false comp readOk cm cc =
      { success := false, readAttempts := [], configConsulted := false } := rfl

end Sparv

namespace Sparv

/-- A host string starting with "svn+" is non-empty, hence truthy. -/
theorem startsWith_svn_ne_empty (h : String) (hs : startswith h "svn+" = true) : h ≠ "" := by
  intro he
  subst he
  exact absurd hs (by decide)

/-- Claim C4: with a non-empty target directory, a host starting with "svn+" selects the
SVN transport committing at host (trailing slashes stripped) + "/" + artifact file name;
any other host selects the path-copy transport; concretely, installing "stats_X.csv"
with host "svn+https://x/repo" commits to "https://x/repo/stats_X.csv" and writes the
install-marker. -/
theorem install_transport_selection (fl td h : String) (host' : Option String)
    (ok : Bool) (st : MarkerState) (htd : td ≠ "") (hsvn : startswith h "svn+" = true)
    (hother : (optStrTruthy host' && startswith (host'.getD "") "svn+") = false) :
    (install_sbx_freq_list fl (some h) td ok st).attempted =
      [Transport.svnCommit fl (rstripSlashes h ++ "/" ++ pathName fl) true] ∧
    (install_sbx_freq_list fl host' td ok st).attempted =
      [Transport.pathCopy fl host' td] ∧
    install_sbx_freq_list "stats_X.csv" (some "svn+https://x/repo") "ignored" true st =
      { attempted :=
          [Transport.svnCommit "stats_X.csv" "svn+https://x/repo/stats_X.csv" true]
        error := none
        markers := { install := true, uninstall := false } } ∧
    install_svn_commit_url "svn+https://x/repo/stats_X.csv" = "https://x/repo/stats_X.csv" := by
  have hne : h ≠ "" := startsWith_svn_ne_empty h hsvn
  refine ⟨?_, ?_, ?_, ?_⟩
  · cases ok <;> simp [install_sbx_freq_list, optStrTruthy, htd, hsvn, hne]
  · cases ok <;> simp [install_sbx_freq_list, htd, hother]
  · rfl
  · decide

/-- Witness for C4 at concrete inputs. -/
theorem install_transport_selection_witness :
    (install_sbx_freq_list "out/f.csv" (some "svn+http://h/r/") "dir" true
        ⟨false, false⟩).attempted =
      [Transport.svnCommit "out/f.csv"
        (rstripSlashes "svn+http://h/r/" ++ "/" ++ pathName "out/f.csv") true] ∧
    (install_sbx_freq_list "out/f.csv" (some "myhost") "dir" true ⟨false, false⟩).attempted =
      [Transport.pathCopy "out/f.csv" (some "myhost") "dir"] ∧
    install_sbx_freq_list "stats_X.csv" (some "svn+https://x/repo") "ignored" true
        ⟨false, false⟩ =
      { attempted :=
          [Transport.svnCommit "stats_X.csv" "svn+https://x/repo/stats_X.csv" true]
        error := none
        markers := { install := true, uninstall := false } } ∧
    install_svn_commit_url "svn+https://x/repo/stats_X.csv" = "https://x/repo/stats_X.csv" :=
  install_transport_selection "out/f.csv" "dir" "svn+http://h/r/" (some "myhost") true
    ⟨false, false⟩ (by decide) (by decide) (by decide)

/-- Claim C6: the file name an uninstall call removes is
"stats_" + corpus_id + ".csv", with "." + compression appended exactly when the
compressed flag is set, handed to whichever transport the host selects. -/
theorem uninstall_expected_file_name (cid : String) (host : Option String)
    (rd comp : String) (uc ok : Bool) (st : MarkerState) (hrd : rd ≠ "") :
    (uninstall_sbx_freq_list cid host rd comp uc ok st).attempted =
      [if optStrTruthy host && startswith (host.getD "") "svn+" then
          Transport.svnRemove (rstripSlashes (host.getD "") ++ "/" ++
            ("stats_" ++ cid ++ ".csv" ++ (if uc then "." ++ comp else "")))
        else
          Transport.pathRemove
            (pathJoin rd ("stats_" ++ cid ++ ".csv" ++ (if uc then "." ++ comp else "")))
            host] := by
  cases ok <;> simp [uninstall_sbx_freq_list, hrd]

/-- Witness for C6 at concrete inputs: removing the compressed variant of corpus
"mycorpus" targets "stats_mycorpus.csv.gz". -/
theorem uninstall_expected_file_name_witness :
    (uninstall_sbx_freq_list "mycorpus" none "dir" "gz" true true ⟨true, false⟩).attempted =
      [Transport.pathRemove (pathJoin "dir" "stats_mycorpus.csv.gz") none] := by
  have h := uninstall_expected_file_name "mycorpus" none "dir" "gz" true true
    ⟨true, false⟩ (by decide)
  rw [h]
  decide

end Sparv

namespace Sparv

/-- The accumulation loop appends one `suppress_step` value per input pair. -/
theorem condLoop_eq_append (xs : List (String × String)) (acc : List String) :
    condLoop xs acc = acc ++ xs.map suppress_step := by
  induction xs generalizing acc with
  | nil => simp [condLoop]
  | cons p rest ih => simp [condLoop, ih]

/-- `conditional_best_complemgram` maps `suppress_step` over the input pairs. -/
theorem conditional_best_complemgram_eq_map (xs : List (String × String)) :
    conditional_best_complemgram xs = xs.map suppress_step := by
  simp [conditional_best_complemgram, condLoop_eq_append]

/-- Claim C5: at every position the output of `conditional_best_complemgram` is "" when
the companion sense value is non-empty and different from "|", and the original
complemgram otherwise; in particular the companions "" and "|" leave any value
unchanged and the companion "x" blanks any non-empty value. -/
theorem conditional_suppression (xs : List (String × String)) (i : Nat)
    (hi : i < xs.length) (v : String) (_hv : v ≠ "") :
    (conditional_best_complemgram xs)[i]? =
      some (if (xs.get ⟨i, hi⟩).2 ≠ "" ∧ (xs.get ⟨i, hi⟩).2 ≠ "|" then ""
            else (xs.get ⟨i, hi⟩).1) ∧
    conditional_best_complemgram [(v, "")] = [v] ∧
    conditional_best_complemgram [(v, "|")] = [v] ∧
    conditional_best_complemgram [(v, "x")] = [""] := by
  refine ⟨?_, ?_, ?_, ?_⟩
  · rw [conditional_best_complemgram_eq_map, List.getElem?_map,
      List.getElem?_eq_getElem hi]
    rfl
  · simp [conditional_best_complemgram, condLoop, suppress_step]
  · simp [conditional_best_complemgram, condLoop, suppress_step]
  · simp only [conditional_best_complemgram, condLoop, suppress_step, List.nil_append]
    rw [if_pos (by decide)]

/-- Witness for C5 at concrete inputs: companion "b" blanks the value, and the three
identities at value "a". -/
theorem conditional_suppression_witness :
    (conditional_best_complemgram [("a", "b"), ("c", "")])[0]? = some "" ∧
    conditional_best_complemgram [("a", "")] = ["a"] ∧
    conditional_best_complemgram [("a", "|")] = ["a"] ∧
    conditional_best_complemgram [("a", "x")] = [""] := by
  have h := conditional_suppression [("a", "b"), ("c", "")] 0 (by decide) "a" (by decide)
  exact ⟨by rw [h.1]; decide, h.2.1, h.2.2.1, h.2.2.2⟩

/-- Indexing the suppressed output of two zipped equal-length streams yields either the
original complemgram at that position or "". -/
theorem zip_map_suppress_getElem (cgs s : List String) (i : Nat) (hi : i < cgs.length)
    (hlen : cgs.length = s.length) :
    ((cgs.zip s).map suppress_step)[i]? = cgs[i]? ∨
    ((cgs.zip s).map suppress_step)[i]? = some "" := by
  induction cgs generalizing s i with
  | nil => simp at hi
  | cons a cgs' ih =>
    cases s with
    | nil => simp at hlen
    | cons b s' =>
      cases i with
      | zero =>
        simp only [List.zip_cons_cons, List.map_cons, List.getElem?_cons_zero,
          suppress_step]
        split
        · right; rfl
        · left; rfl
      | succ j =>
        have hj : j < cgs'.length := by simpa using hi
        have hl : cgs'.length = s'.length := by simpa using hlen
        simpa using ih s' j hj hl

/-- Claim C10: for equal-length input streams, `conditional_best_complemgram` writes
exactly one output value per input token, and the value at each position is the
original complemgram at that position or "". -/
theorem one_output_per_token (cgs s : List String) (hlen : cgs.length = s.length) :
    (conditional_best_complemgram (read_attributes cgs s)).length = cgs.length ∧
    ∀ i, i < cgs.length →
      ((conditional_best_complemgram (read_attributes cgs s))[i]? = cgs[i]? ∨
       (conditional_best_complemgram (read_attributes cgs s))[i]? = some "") := by
  constructor
  · simp [conditional_best_complemgram_eq_map, read_attributes, hlen]
  · intro i hi
    rw [conditional_best_complemgram_eq_map]
    simp only [read_attributes]
    exact zip_map_suppress_getElem cgs s i hi hlen

/-- Witness for C10 at concrete inputs. -/
theorem one_output_per_token_witness :
    (conditional_best_complemgram (read_attributes ["a", "b"] ["s", ""])).length =
      (["a", "b"] : List String).length ∧
    ((conditional_best_complemgram (read_attributes ["a", "b"] ["s", ""]))[0]? =
        (["a", "b"] : List String)[0]? ∨
     (conditional_best_complemgram (read_attributes ["a", "b"] ["s", ""]))[0]? =
        some "") := by
  have h := one_output_per_token ["a", "b"] ["s", ""] (by decide)
  exact ⟨h.1, h.2 0 (by decide)⟩

end Sparv

namespace Sparv

/-- Claim C7 as stated is false: when the caller pins a codec, the first (and only)
read attempt of `inspect_workdir_file` is made with that codec, not with no codec. -/
theorem inspect_pinned_first_attempt_counterexample :
    (inspect_workdir_file true (some "gzip") (fun _ => false) false none).readAttempts =
      [some "gzip"] ∧
    (some "gzip" : Option String) ≠ none := by
  constructor
  · decide
  · decide

/-- Claim C7 (amended): for an existing artifact the first read attempt uses the
caller's pinned codec when one is pinned and no codec otherwise; on its failure, and
only when no codec was pinned, the configuration is consulted and the read retried
exactly once with the configured codec; if that retry fails, or no codec can be
determined, or a pinned codec's read fails, the operation returns false; at most two
read attempts are ever made. -/
theorem inspect_fallback_policy (comp : Option String) (readOk : Option String → Bool)
    (cm : Bool) (cc : Option String) :
    (inspect_workdir_file true comp readOk cm cc).readAttempts.length ≤ 2 ∧
    (inspect_workdir_file true comp readOk cm cc).readAttempts.head? =
      some (if optStrTruthy comp then comp else none) ∧
    (optStrTruthy comp = true →
      (inspect_workdir_file true comp readOk cm cc).configConsulted = false ∧
      (inspect_workdir_file true comp readOk cm cc).readAttempts = [comp] ∧
      (readOk comp = false →
        (inspect_workdir_file true comp readOk cm cc).success = false)) ∧
    (optStrTruthy comp = false → readOk none = false →
      (inspect_workdir_file true comp readOk cm cc).configConsulted = true ∧
      ((cm = false ∧ optStrTruthy cc = true) →
        (inspect_workdir_file true comp readOk cm cc).readAttempts = [none, cc] ∧
        (inspect_workdir_file true comp readOk cm cc).success = readOk cc) ∧
      ((cm = true ∨ optStrTruthy cc = false) →
        (inspect_workdir_file true comp readOk cm cc).readAttempts = [none] ∧
        (inspect_workdir_file true comp readOk cm cc).success = false)) := by
  by_cases hc : optStrTruthy comp
  · by_cases hr : readOk comp
    · simp [inspect_workdir_file, hc, hr]
    · simp [inspect_workdir_file, hc, hr]
  · by_cases hr0 : readOk none
    · simp [inspect_workdir_file, hc, hr0]
    · by_cases hcm : cm
      · simp [inspect_workdir_file, hc, hr0, hcm]
      · by_cases hcc : optStrTruthy cc
        · by_cases hr1 : readOk cc
          · simp [inspect_workdir_file, hc, hr0, hcm, hcc, hr1]
          · simp [inspect_workdir_file, hc, hr0, hcm, hcc, hr1]
        · simp [inspect_workdir_file, hc, hr0, hcm, hcc]

/-- Witness for the amended C7 at concrete inputs: with no pinned codec, a failing
plain read and a configured codec "gzip" whose read succeeds, exactly the two expected
attempts are made and the inspection succeeds. -/
theorem inspect_fallback_policy_witness :
    (inspect_workdir_file true none (fun c' => c' == some "gzip") false
        (some "gzip")).readAttempts = [none, some "gzip"] ∧
    (inspect_workdir_file true none (fun c' => c' == some "gzip") false
        (some "gzip")).success = true := by
  have h := ((inspect_fallback_policy none (fun c' => c' == some "gzip") false
    (some "gzip")).2.2.2 (by decide) (by decide)).2.1 ⟨rfl, by decide⟩
  exact ⟨h.1, by rw [h.2]; decide⟩

end Sparv
